import Mathlib

/-!
Verification of the transformation engine of `etl.py` (i94 immigration /
airport / temperature / demographics ETL).

Modelling conventions of the shallow embedding:
* Tables are Lean lists of structures; every Spark dataframe transform
  becomes a pure list function.
* Scalar values reaching the Python UDFs are modelled by `PyVal`
  (null, integer, floating-point number as an exact rational, string).
* Dates and SQL timestamps are integer day-counts with day 0 = 1960-01-01
  (the SAS epoch used by the script); `civilFromDays` / `daysFromCivil`
  implement the proleptic Gregorian calendar so calendar extraction
  functions (year, month, quarter, ISO week, day-of-week) are computable.
* SQL string functions (`upper`, `trim`, `split`, numeric casts) are
  modelled at the character level over ASCII, matching their behaviour on
  the ASCII city/state/country names the script processes.
* Nullable SQL columns are `Option` values; SQL three-valued logic is
  modelled where it matters: an equality or inequality comparison
  involving NULL is not satisfied.
-/

namespace ETL

/-- A Python/Spark scalar as it reaches a UDF or SQL cast: null, integral
value, floating-point value (modelled as an exact rational), or string. -/
inductive PyVal where
  | none
  | int (n : Int)
  | float (q : Rat)
  | str (s : String)
deriving DecidableEq

/-- Computable floor of a rational (`Int` division is floor division for a
positive denominator). -/
def ratFloor (q : Rat) : Int := q.num / (q.den : Int)

/-- Computable ceiling of a rational. -/
def ratCeil (q : Rat) : Int := -((-q.num) / (q.den : Int))

/-- Truncation toward zero, the semantics of Python `int(float)` and of the
Spark `int()` cast on numeric input. -/
def pyTrunc (q : Rat) : Int := if 0 ≤ q then ratFloor q else ratCeil q

/-- ASCII upper-casing of one character. -/
def upChar (c : Char) : Char :=
  if 'a' ≤ c ∧ c ≤ 'z' then Char.ofNat (c.toNat - 32) else c

/-- SQL `upper()`, modelled over the string's characters (the script only
upper-cases ASCII city/state/country names). -/
def upper (s : String) : List Char := s.data.map upChar

/-- Whitespace recognised when trimming. -/
def isSpaceChar (c : Char) : Bool := c = ' ' ∨ c = '\t' ∨ c = '\n' ∨ c = '\r'

/-- Strip leading and trailing whitespace from a character list. -/
def trimChars (l : List Char) : List Char :=
  ((l.dropWhile isSpaceChar).reverse.dropWhile isSpaceChar).reverse

/-- Decimal digit test. -/
def isDigitChar (c : Char) : Bool := '0' ≤ c ∧ c ≤ '9'

/-- Value of one decimal digit, `none` on a non-digit. -/
def digitVal (c : Char) : Option Nat :=
  if '0' ≤ c ∧ c ≤ '9' then some (c.toNat - 48) else none

/-- Parse an unsigned decimal integer; `none` on an empty list or any
non-digit character. -/
def parseNatChars : List Char → Option Nat → Option Nat
  | [], acc => acc
  | c :: cs, acc =>
    match digitVal c, acc with
    | some d, some a => parseNatChars cs (some (a * 10 + d))
    | some d, Option.none => parseNatChars cs (some d)
    | Option.none, _ => none

/-- Parse an optionally signed decimal integer. -/
def parseIntChars : List Char → Option Int
  | '-' :: rest => (parseNatChars rest none).map (fun n => -(n : Int))
  | '+' :: rest => (parseNatChars rest none).map (fun n => (n : Int))
  | l => (parseNatChars l none).map (fun n => (n : Int))

/-- Python `int(str)`: surrounding whitespace is stripped, then an
optionally signed decimal numeral is required; anything else raises
(modelled as `none`). -/
def pyStrToInt (s : String) : Option Int := parseIntChars (trimChars s.data)

/-- Python `int(x)` as applied inside `convert_datetime`: `None` and
non-numeric strings raise (modelled as `none`), floats truncate toward
zero. -/
def pyInt : PyVal → Option Int
  | .none => none
  | .int n => some n
  | .float q => some (pyTrunc q)
  | .str s => pyStrToInt s

/-- A proleptic Gregorian civil date. -/
structure Civil where
  year : Int
  month : Int
  day : Int
deriving DecidableEq

/-- Civil date of an integer day-count (day 0 = 1960-01-01), by the
standard era-based Gregorian algorithm. -/
def civilFromDays (d : Int) : Civil :=
  let z := d - 3653 + 719468
  let era := z / 146097
  let doe := z - era * 146097
  let yoe := (doe - doe / 1460 + doe / 36524 - doe / 146096) / 365
  let y := yoe + era * 400
  let doy := doe - (365 * yoe + yoe / 4 - yoe / 100)
  let mp := (5 * doy + 2) / 153
  let dd := doy - (153 * mp + 2) / 5 + 1
  let m := if mp < 10 then mp + 3 else mp - 9
  ⟨if m ≤ 2 then y + 1 else y, m, dd⟩

/-- Day-count (day 0 = 1960-01-01) of a civil date, inverse of
`civilFromDays`. -/
def daysFromCivil (y m d : Int) : Int :=
  let y1 := if m ≤ 2 then y - 1 else y
  let era := y1 / 400
  let yoe := y1 - era * 400
  let mp := if 2 < m then m - 3 else m + 9
  let doy := (153 * mp + 2) / 5 + d - 1
  let doe := yoe * 365 + yoe / 4 - yoe / 100 + doy
  era * 146097 + doe - 719468 + 3653

/-- Spark `year()`. -/
def yearOf (d : Int) : Int := (civilFromDays d).year

/-- Spark `month()`. -/
def monthOf (d : Int) : Int := (civilFromDays d).month

/-- Spark `day()`. -/
def dayOf (d : Int) : Int := (civilFromDays d).day

/-- Spark `dayofweek()`: 1 = Sunday … 7 = Saturday (1960-01-01 was a
Friday, day-count 0 ↦ 6). -/
def dayofweekOf (d : Int) : Int := (d + 5) % 7 + 1

/-- ISO day of the week: 1 = Monday … 7 = Sunday. -/
def isoDow (d : Int) : Int := (d + 4) % 7 + 1

/-- Spark `weekofyear()`: the ISO-8601 week number — the week is attached
to the year of its Thursday and counted from that year's first day. -/
def weekofyearOf (d : Int) : Int :=
  let thursday := d + (4 - isoDow d)
  let y := (civilFromDays thursday).year
  (thursday - daysFromCivil y 1 1) / 7 + 1

/-- Spark `quarter()`. -/
def quarterOf (d : Int) : Int := (monthOf d + 2) / 3

-- Calendar sanity checks.
example : civilFromDays 0 = ⟨1960, 1, 1⟩ := by decide
example : daysFromCivil 1960 1 1 = 0 := by decide
example : civilFromDays 14609 = ⟨1999, 12, 31⟩ := by decide
example : daysFromCivil 1999 12 31 = 14609 := by decide
example : civilFromDays (-1) = ⟨1959, 12, 31⟩ := by decide
example : civilFromDays 20454 = ⟨2016, 1, 1⟩ := by decide
example : dayofweekOf 0 = 6 := by decide
example : weekofyearOf 0 = 53 := by decide
example : weekofyearOf 20454 = 53 := by decide
example : weekofyearOf 20457 = 1 := by decide

/-- The date 1960-01-01 (`datetime(1960, 1, 1)` in `convert_datetime`) in
the day-count representation. -/
def date_1960_01_01 : Int := 0

/-- Adding a number of days to a date (`timedelta(days = ...)`) in the
day-count representation. -/
def datePlusDays (date d : Int) : Int := date + d

/-- Day-count of Python `datetime.min` (0001-01-01). -/
def pydatetime_min_days : Int := daysFromCivil 1 1 1

/-- Day-count of Python `datetime.max`'s date (9999-12-31):
`datetime(1960, 1, 1) + timedelta(days=d)` raises `OverflowError` as soon
as the result leaves `[datetime.min, datetime.max]`. -/
def pydatetime_max_days : Int := daysFromCivil 9999 12 31

/-- `etl.py` `convert_datetime`: `datetime(1960, 1, 1) +
timedelta(days=int(num_days))`, with any exception recovered to `None` by
the bare `except` — including the `OverflowError` raised when the sum
leaves Python `datetime`'s year range 1..9999 (a `timedelta` overflow for
astronomically large `d` lands in the same `None` branch). -/
def convert_datetime (num_days : PyVal) : Option Int :=
  match pyInt num_days with
  | some d =>
    if pydatetime_min_days ≤ date_1960_01_01 + d ∧
        date_1960_01_01 + d ≤ pydatetime_max_days then
      some (datePlusDays date_1960_01_01 d)
    else none
  | Option.none => none

-- Bounds sanity checks.
example : civilFromDays pydatetime_min_days = ⟨1, 1, 1⟩ := by decide
example : civilFromDays pydatetime_max_days = ⟨9999, 12, 31⟩ := by decide
example : pydatetime_max_days = 2936549 := by decide

/-- Python `x == n` against an integer literal, as evaluated inside the
UDFs: `None` and strings compare unequal, floats compare by value. -/
def pyEqInt (v : PyVal) (n : Int) : Bool :=
  match v with
  | .int m => m = n
  | .float q => q = (n : Rat)
  | _ => false

/-- `etl.py` `convert_i94mode`. -/
def convert_i94mode (mode : PyVal) : String :=
  if pyEqInt mode 1 then "Air"
  else if pyEqInt mode 2 then "Sea"
  else if pyEqInt mode 3 then "Land"
  else "Unknown"

/-- `etl.py` `convert_visatype`. -/
def convert_visatype (visa : PyVal) : String :=
  if visa = PyVal.none then "Not Reported"
  else if pyEqInt visa 1 then "Business"
  else if pyEqInt visa 2 then "Pleasure"
  else if pyEqInt visa 3 then "Student"
  else "Unknown"

/-- SQL equality of two nullable strings after `upper()` on both sides:
NULL on either side never matches. -/
def sqlUpperEq (a b : Option String) : Bool :=
  match a, b with
  | some x, some y => upper x = upper y
  | _, _ => false

/-- Plain (case-sensitive) SQL equality of two nullable strings: NULL on
either side never matches. -/
def sqlEqStr (a b : Option String) : Bool :=
  match a, b with
  | some x, some y => x = y
  | _, _ => false

/-- Day-count of 1999-12-31: both temperature pipelines keep rows with
`dt > '1999-12-31'`. -/
def threshold_1999_12_31 : Int := daysFromCivil 1999 12 31

/-- Spark `dense_rank()` over `(partition by key order by dt desc)`:
one plus the number of distinct strictly later `dt` values inside the
row's partition (rows tying on the partition maximum all get rank 1). -/
def denseRankDtDesc {α : Type} (key : α → Option String) (dt : α → Int)
    (l : List α) (r : α) : Nat :=
  1 + ((((l.filter (fun x => decide (key x = key r))).map dt).dedup).filter
        (fun d => decide (dt r < d))).length

/-- A row of `GlobalLandTemperaturesByCountry.csv` (inferred schema:
every column nullable; `dt` as a day-count). -/
structure CountryTempRow where
  dt : Int
  AverageTemperature : Option Rat
  AverageTemperatureUncertainty : Option Rat
  Country : Option String
deriving DecidableEq

/-- The first two country-temperature stages of `read_country_data`:
keep `dt > '1999-12-31'`, then keep non-null `AverageTemperature`. -/
def countryTempsFiltered (l : List CountryTempRow) : List CountryTempRow :=
  (l.filter (fun r => decide (threshold_1999_12_31 < r.dt))).filter
    (fun r => r.AverageTemperature.isSome)

/-- The country-temperature pipeline of `read_country_data`: the two
filters, then keep the dense-rank-1 rows of `(partition by Country order
by dt desc)`.  The final `orderBy("Country")` only reorders rows and is
not modelled. -/
def reduceCountryTemps (l : List CountryTempRow) : List CountryTempRow :=
  (countryTempsFiltered l).filter (fun r => decide
    (denseRankDtDesc CountryTempRow.Country CountryTempRow.dt
      (countryTempsFiltered l) r = 1))

/-- A row of `GlobalLandTemperaturesByCity.csv` (columns used by the
script; inferred schema: every column nullable). -/
structure CityTempRow where
  dt : Int
  AverageTemperature : Option Rat
  AverageTemperatureUncertainty : Option Rat
  City : Option String
  Country : Option String
deriving DecidableEq

/-- The first two city-temperature stages of `read_city_temperatures`:
keep `dt > '1999-12-31'`, then keep `Country == "United States"`.
Unlike the country pipeline there is no null-temperature filter. -/
def cityTempsFiltered (l : List CityTempRow) : List CityTempRow :=
  (l.filter (fun r => decide (threshold_1999_12_31 < r.dt))).filter
    (fun r => decide (r.Country = some "United States"))

/-- The city-temperature pipeline of `read_city_temperatures`: the two
filters, then keep the dense-rank-1 rows of `(partition by City order by
dt desc)`.  The final `orderBy("City")` only reorders rows and is not
modelled. -/
def reduceCityTemps (l : List CityTempRow) : List CityTempRow :=
  (cityTempsFiltered l).filter (fun r => decide
    (denseRankDtDesc CityTempRow.City CityTempRow.dt
      (cityTempsFiltered l) r = 1))

/-- A row of the i94 countries CSV after the rename to `Country_Code`. -/
structure CountryRow where
  Country_Code : Option Int
  Country : Option String
deriving DecidableEq

/-- Output schema of the `Country_table` select. -/
structure CountryOut where
  Country_code : Option Int
  Country : Option String
  LastMeasuredDate : Option Int
  AverageTemperature : Option Rat
  AverageTemperatureUncertainty : Option Rat
deriving DecidableEq

/-- The joined output row for one country and one matched reduced
temperature row. -/
def mkCountryOut (c : CountryRow) (t : CountryTempRow) : CountryOut :=
  { Country_code := c.Country_Code, Country := c.Country,
    LastMeasuredDate := some t.dt,
    AverageTemperature := t.AverageTemperature,
    AverageTemperatureUncertainty := t.AverageTemperatureUncertainty }

/-- The output row for a country with no temperature match: the three
temperature-side fields stay NULL. -/
def mkCountryOutNull (c : CountryRow) : CountryOut :=
  { Country_code := c.Country_Code, Country := c.Country,
    LastMeasuredDate := Option.none, AverageTemperature := Option.none,
    AverageTemperatureUncertainty := Option.none }

/-- `read_country_data`'s final query: `SELECT DISTINCT` over
`countries_view LEFT OUTER JOIN country_temperatures_view ON
upper(cv.Country) = upper(ct.Country)` (the right side being the reduced
temperature table), projected to the five output columns. -/
def countryTable (countries : List CountryRow) (temps : List CountryTempRow) :
    List CountryOut :=
  (countries.flatMap (fun c =>
    let ms := (reduceCountryTemps temps).filter
        (fun t => sqlUpperEq c.Country t.Country)
    if ms.isEmpty then [mkCountryOutNull c] else ms.map (mkCountryOut c))).dedup

/-- A row of the i94 ports CSV after the renames in `read_port_data`
(`Code` ↦ `Port_Code`, `City` ↦ `Port_City`, `State` ↦ `State_Code`). -/
structure PortRow where
  Port_Code : Option String
  Port_City : Option String
  State_Code : Option String
deriving DecidableEq

/-- A row of `us-cities-demographics.csv` after the renames in
`read_demographics_data`. -/
structure DemoRow where
  City : Option String
  State : Option String
  Median_Age : Option Rat
  Male_Population : Option Int
  Female_Population : Option Int
  Total_Population : Option Int
  Number_of_Veterans : Option Int
  Foreign_born : Option Int
  Avg_Household_Size : Option Rat
  State_Code : Option String
  race : Option String
  Count : Option Int
deriving DecidableEq

/-- Output schema of the `Demographics_table` select (the 13 projected
columns; `p.State_Code` is the port-side state code). -/
structure DemoOut where
  Port_Code : Option String
  Port_City : Option String
  State_Code : Option String
  State : Option String
  Median_Age : Option Rat
  Male_Population : Option Int
  Female_Population : Option Int
  Total_Population : Option Int
  Number_of_Veterans : Option Int
  Foreign_born : Option Int
  Avg_Household_Size : Option Rat
  race : Option String
  Count : Option Int
deriving DecidableEq

/-- The demographics join condition:
`UPPER(p.Port_City) = UPPER(d.City) AND UPPER(p.State_Code) =
UPPER(d.State_Code)`. -/
def demoMatch (p : PortRow) (d : DemoRow) : Bool :=
  sqlUpperEq p.Port_City d.City && sqlUpperEq p.State_Code d.State_Code

/-- One joined demographics output row. -/
def mkDemoOut (p : PortRow) (d : DemoRow) : DemoOut :=
  { Port_Code := p.Port_Code, Port_City := p.Port_City,
    State_Code := p.State_Code, State := d.State,
    Median_Age := d.Median_Age, Male_Population := d.Male_Population,
    Female_Population := d.Female_Population,
    Total_Population := d.Total_Population,
    Number_of_Veterans := d.Number_of_Veterans,
    Foreign_born := d.Foreign_born,
    Avg_Household_Size := d.Avg_Household_Size,
    race := d.race, Count := d.Count }

/-- `read_demographics_data`'s query: `SELECT DISTINCT * FROM ports_view p
JOIN demo_view d ON UPPER(p.Port_City) = UPPER(d.City) AND
UPPER(p.State_Code) = UPPER(d.State_Code)` (an INNER join; the DISTINCT
deduplicates full joined rows), then the 13-column projection. -/
def demographicsTable (ports : List PortRow) (demos : List DemoRow) :
    List DemoOut :=
  ((ports.flatMap (fun p =>
      (demos.filter (fun d => demoMatch p d)).map (fun d => (p, d)))).dedup).map
    (fun pd => mkDemoOut pd.1 pd.2)

/-- Split a character list at every occurrence of a separator
(`F.split(col, ",")`). -/
def splitOn (sep : Char) : List Char → List (List Char)
  | [] => [[]]
  | c :: cs =>
    let r := splitOn sep cs
    if c = sep then [] :: r
    else
      match r with
      | h :: t => (c :: h) :: t
      | [] => [[c]]

/-- A row of the airport-codes CSV (inferred schema: every column
nullable). -/
structure AirportRow where
  ident : Option String
  type : Option String
  name : Option String
  elevation_ft : Option Rat
  continent : Option String
  iso_country : Option String
  iso_region : Option String
  municipality : Option String
  gps_code : Option String
  iata_code : Option String
  local_code : Option String
  coordinates : Option String
deriving DecidableEq

/-- The `longitude` column added in `read_airport_data`:
`F.split(coordinates, ",").getItem(0)` (NULL coordinates give NULL). -/
def longitudeOf (a : AirportRow) : Option (List Char) :=
  a.coordinates.bind (fun s => (splitOn ',' s.data).get? 0)

/-- The `latitude` column added in `read_airport_data`:
`F.split(coordinates, ",").getItem(1)` (missing item gives NULL). -/
def latitudeOf (a : AirportRow) : Option (List Char) :=
  a.coordinates.bind (fun s => (splitOn ',' s.data).get? 1)

/-- Digit-list value (used for the integer and fraction parts of a
decimal numeral). -/
def digitsVal (l : List Char) : Nat :=
  l.foldl (fun a c => a * 10 + (c.toNat - 48)) 0

/-- Parse an unsigned decimal numeral with an optional fraction part. -/
def parseUnsignedRat (l : List Char) : Option Rat :=
  let ip := l.takeWhile isDigitChar
  let rest := l.dropWhile isDigitChar
  match rest with
  | [] => if ip.isEmpty then none else some ((digitsVal ip : Int) : Rat)
  | '.' :: fp =>
    if fp.all isDigitChar && !(ip.isEmpty && fp.isEmpty) then
      some (((digitsVal ip : Int) : Rat) +
        ((digitsVal fp : Int) : Rat) / ((10 : Rat) ^ fp.length))
    else none
  | _ => none

/-- Parse an optionally signed decimal numeral. -/
def parseRatChars : List Char → Option Rat
  | '-' :: rest => (parseUnsignedRat rest).map (fun q => -q)
  | '+' :: rest => parseUnsignedRat rest
  | l => parseUnsignedRat l

/-- The Spark `float()` cast of a nullable string: trims whitespace and
parses a signed decimal numeral, NULL when unparsable. -/
def sparkFloat (s : Option (List Char)) : Option Rat :=
  s.bind (fun l => parseRatChars (trimChars l))

/-- SQL `ifnull(elevation_ft, 0)`. -/
def ifnull0 (x : Option Rat) : Rat := x.getD 0

/-- Output schema of the `airports_table` select. -/
structure AirportOut where
  Port_Code : Option String
  Port_City : Option String
  State_Code : Option String
  name : Option String
  type : Option String
  elevation_feet : Rat
  elevation_metres : Int
  continent : Option String
  iso_country : Option String
  iso_region : Option String
  municipality : Option String
  gps_code : Option String
  iata_code : Option String
  longitude : Option Rat
  latitude : Option Rat
deriving DecidableEq

/-- The airport join condition `iso_region = ('US-' || trim(State_Code))`
(NULL on either side never matches; `||` with NULL is NULL). -/
def regionMatch (a : AirportRow) (p : PortRow) : Bool :=
  match a.iso_region, p.State_Code with
  | some r, some s => r.data = "US-".data ++ trimChars s.data
  | _, _ => false

/-- The airport WHERE clause `iso_country = 'US' AND type <> 'closed'`
(a NULL `type` fails the `<>` comparison). -/
def airportWhere (a : AirportRow) : Bool :=
  sqlEqStr a.iso_country (some "US") &&
    match a.type with
    | some t => decide (t ≠ "closed")
    | Option.none => false

/-- One joined airport output row. -/
def mkAirportOut (p : PortRow) (a : AirportRow) : AirportOut :=
  { Port_Code := p.Port_Code, Port_City := p.Port_City,
    State_Code := p.State_Code, name := a.name, type := a.type,
    elevation_feet := ifnull0 a.elevation_ft,
    elevation_metres := ratCeil (ifnull0 a.elevation_ft * (0.3048 : Rat)),
    continent := a.continent, iso_country := a.iso_country,
    iso_region := a.iso_region, municipality := a.municipality,
    gps_code := a.gps_code, iata_code := a.iata_code,
    longitude := sparkFloat (longitudeOf a),
    latitude := sparkFloat (latitudeOf a) }

/-- `read_airport_data`'s second query (the one whose result is written):
`ports_view JOIN airport_view ON Port_Code = iata_code AND iso_region =
('US-' || trim(State_Code)) WHERE iso_country = 'US' AND type <>
'closed'`, with `elevation_feet = ifnull(elevation_ft, 0)` and
`elevation_metres = int(ceil(ifnull(elevation_ft, 0) * 0.3048))`.
`airport_view` is the view registered before the first (discarded)
US-filter query, so it still holds every airport row. -/
def airportsTable (ports : List PortRow) (airports : List AirportRow) :
    List AirportOut :=
  ports.flatMap (fun p =>
    (airports.filter (fun a =>
        sqlEqStr p.Port_Code a.iata_code && regionMatch a p &&
          airportWhere a)).map (fun a => mkAirportOut p a))

/-- A raw SAS immigration record as loaded into `immigrations_view`
(every field reaches Spark as a nullable double or string, modelled by
`PyVal`). -/
structure ImmigrationRecord where
  cicid : PyVal
  i94yr : PyVal
  i94mon : PyVal
  i94cit : PyVal
  i94port : PyVal
  biryear : PyVal
  airline : PyVal
  fltno : PyVal
  i94visa : PyVal
  i94mode : PyVal
  arrdate : PyVal
  depdate : PyVal
deriving DecidableEq

/-- The Spark `int()` cast: NULL stays NULL, numeric values truncate
toward zero, strings parse as integers or become NULL. -/
def sparkIntCast : PyVal → Option Int
  | .none => none
  | .int n => some n
  | .float q => some (pyTrunc q)
  | .str s => pyStrToInt s

/-- Output schema of the `immigrations_table` select. -/
structure ImmigrationOut where
  immigration_id : Option Int
  Year : Option Int
  Month : Option Int
  country_of_citizenship : Option Int
  port_code : PyVal
  mode_of_travel : String
  visa_type : String
  birth_year : Option Int
  arrival_airline : PyVal
  arrival_flightnumber : PyVal
  arrival_date : Option Int
  departure_date : Option Int
deriving DecidableEq

/-- One projected immigration output row (casts and UDF decodings of the
immigration select). -/
def mkImmigrationOut (r : ImmigrationRecord) : ImmigrationOut :=
  { immigration_id := sparkIntCast r.cicid, Year := sparkIntCast r.i94yr,
    Month := sparkIntCast r.i94mon,
    country_of_citizenship := sparkIntCast r.i94cit,
    port_code := r.i94port, mode_of_travel := convert_i94mode r.i94mode,
    visa_type := convert_visatype r.i94visa,
    birth_year := sparkIntCast r.biryear, arrival_airline := r.airline,
    arrival_flightnumber := r.fltno,
    arrival_date := convert_datetime r.arrdate,
    departure_date := convert_datetime r.depdate }

/-- `read_immigration_data`'s immigration query: the projection over
`immigrations_view` restricted by `WHERE int(cicid) = 5748881`. -/
def immigrationsTable (l : List ImmigrationRecord) : List ImmigrationOut :=
  (l.filter (fun r => decide (sparkIntCast r.cicid = some 5748881))).map
    mkImmigrationOut

/-- A time-table row before the final projection (the seven selected
columns, every one NULL-propagating from the decoded date). -/
structure TimeRow where
  sas_date : Option Int
  year : Option Int
  month : Option Int
  day : Option Int
  weekofyear : Option Int
  quarter : Option Int
  dayofweek : Option Int
deriving DecidableEq

/-- Output schema of the time table after the final select — the `day`
column is dropped. -/
structure TimeOut where
  sas_date : Option Int
  year : Option Int
  month : Option Int
  weekofyear : Option Int
  quarter : Option Int
  dayofweek : Option Int
deriving DecidableEq

/-- One time-table row derived from a raw SAS date value through the
`datetime_from_sas` UDF and the Spark date functions. -/
def mkTimeRow (v : PyVal) : TimeRow :=
  let d := convert_datetime v
  { sas_date := d, year := d.map yearOf, month := d.map monthOf,
    day := d.map dayOf, weekofyear := d.map weekofyearOf,
    quarter := d.map quarterOf, dayofweek := d.map dayofweekOf }

/-- The final time-table projection: every displayed column except
`day`. -/
def dropDay (t : TimeRow) : TimeOut :=
  { sas_date := t.sas_date, year := t.year, month := t.month,
    weekofyear := t.weekofyear, quarter := t.quarter,
    dayofweek := t.dayofweek }

/-- The deduplicated union underlying the time table: `SELECT DISTINCT`
of arrival-derived rows (`WHERE arrdate IS NOT NULL`) `UNION` (which also
deduplicates) `SELECT DISTINCT` of departure-derived rows (`WHERE depdate
IS NOT NULL`), both read from the raw `immigrations_view` — the view
registered before the single-record filter. -/
def timeTableRaw (l : List ImmigrationRecord) : List TimeRow :=
  (((l.filter (fun r => decide (r.arrdate ≠ PyVal.none))).map
      (fun r => mkTimeRow r.arrdate)).dedup ++
    ((l.filter (fun r => decide (r.depdate ≠ PyVal.none))).map
      (fun r => mkTimeRow r.depdate)).dedup).dedup

/-- `read_immigration_data`'s time table: the deduplicated union followed
by the projection that drops the `day` column. -/
def timeTable (l : List ImmigrationRecord) : List TimeOut :=
  (timeTableRaw l).map dropDay

/-- Locator handed to `spark.read.load` for the countries CSV in
`read_country_data`: the configured parameter. -/
def read_country_data_countries_locator (country_input_path : String) :
    String :=
  country_input_path

/-- Locator handed to `spark.read.load` for the country-temperature CSV
in `read_country_data`: a hardcoded literal; the
`country_temperature_input_path` parameter is ignored. -/
def read_country_data_temperatures_locator
    (country_temperature_input_path : String) : String :=
  "GlobalLandTemperaturesByCountry.csv"

/-- Locator handed to `spark.read.load` in `read_port_data`. -/
def read_port_data_locator (ports_input_path : String) : String :=
  ports_input_path

/-- Locator handed to `spark.read.load` in `read_demographics_data`: a
hardcoded literal; the `demo_input_path` parameter is ignored. -/
def read_demographics_data_locator (demo_input_path : String) : String :=
  "us-cities-demographics.csv"

/-- Locator handed to `spark.read.load` in `read_airport_data`. -/
def read_airport_data_locator (airports_input_path : String) : String :=
  airports_input_path

/-- Locator handed to the SAS reader in `read_immigration_data`. -/
def read_immigration_data_locator (input_path : String) : String :=
  input_path

/-- Locator handed to `spark.read.load` in `read_city_temperatures`: a
hardcoded relative path; the `city_temperature_input_path` parameter is
ignored. -/
def read_city_temperatures_locator (city_temperature_input_path : String) :
    String :=
  "../../data2/GlobalLandTemperaturesByCity.csv"

/-! ## Helper lemmas -/

/-- The computable rational ceiling agrees with the mathematical
ceiling. -/
theorem ratCeil_eq_ceil (q : Rat) : ratCeil q = ⌈q⌉ := by
  have h1 : ⌈q⌉ = -⌊-q⌋ := by
    conv_lhs => rw [← neg_neg q]
    rw [Int.ceil_neg]
  rw [h1, Rat.floor_def, Rat.num_neg_eq_neg_num, Rat.den_neg_eq_den]
  rfl

/-- Membership characterisation of the immigration projection. -/
theorem mem_immigrationsTable (l : List ImmigrationRecord)
    (row : ImmigrationOut) :
    row ∈ immigrationsTable l ↔
      ∃ r ∈ l, sparkIntCast r.cicid = some 5748881 ∧
        row = mkImmigrationOut r := by
  unfold immigrationsTable
  constructor
  · intro h
    rw [List.mem_map] at h
    obtain ⟨r, hr, hrow⟩ := h
    rw [List.mem_filter] at hr
    exact ⟨r, hr.1, by simpa using hr.2, hrow.symm⟩
  · rintro ⟨r, hr, hc, rfl⟩
    rw [List.mem_map]
    exact ⟨r, List.mem_filter.mpr ⟨hr, by simpa using hc⟩, rfl⟩

/-! ## C1 — immigration projection restricted to one identifier -/

/-- C1: every row of the written immigration table has
`immigration_id = 5748881`, and when exactly one input record satisfies
`int(cicid) = 5748881` the written table has exactly one row. -/
theorem immigration_projection_single_record (l : List ImmigrationRecord) :
    (∀ row ∈ immigrationsTable l, row.immigration_id = some 5748881) ∧
    (l.countP (fun r => decide (sparkIntCast r.cicid = some 5748881)) = 1 →
      (immigrationsTable l).length = 1) := by
  constructor
  · intro row hrow
    obtain ⟨r, _, hc, rfl⟩ := (mem_immigrationsTable l row).mp hrow
    simpa [mkImmigrationOut] using hc
  · intro h
    unfold immigrationsTable
    rw [List.length_map, ← List.countP_eq_length_filter]
    exact h

/-- A record carrying the hardcoded identifier (SAS delivers doubles). -/
def immRecMatching : ImmigrationRecord :=
  { cicid := PyVal.float 5748881, i94yr := PyVal.float 2016,
    i94mon := PyVal.float 4, i94cit := PyVal.float 135,
    i94port := PyVal.str "ATL", biryear := PyVal.float 1980,
    airline := PyVal.str "DL", fltno := PyVal.str "107",
    i94visa := PyVal.float 2, i94mode := PyVal.float 1,
    arrdate := PyVal.float 20545, depdate := PyVal.float 20553 }

/-- A record with a different identifier. -/
def immRecOther : ImmigrationRecord :=
  { cicid := PyVal.float 42, i94yr := PyVal.float 2016,
    i94mon := PyVal.float 4, i94cit := PyVal.float 582,
    i94port := PyVal.str "NYC", biryear := PyVal.float 1975,
    airline := PyVal.str "AA", fltno := PyVal.str "22",
    i94visa := PyVal.float 1, i94mode := PyVal.float 1,
    arrdate := PyVal.float 20546, depdate := PyVal.none }

/-- Witness for C1: on an input with exactly one matching record the
output is a single row carrying the hardcoded identifier. -/
theorem immigration_projection_single_record_witness :
    (immigrationsTable [immRecMatching, immRecOther]).length = 1 ∧
    ∀ row ∈ immigrationsTable [immRecMatching, immRecOther],
      row.immigration_id = some 5748881 :=
  ⟨(immigration_projection_single_record [immRecMatching, immRecOther]).2
      (by decide),
   (immigration_projection_single_record [immRecMatching, immRecOther]).1⟩

/-! ## C3 — input locators versus configured paths -/

/-- C3 (divergence): three of the transforms hand `spark.read.load` a
hardcoded literal instead of their configured input-path parameter
(country temperatures, demographics, city temperatures); the other four
loads do receive the configured value. -/
theorem input_locators_hardcoded :
    read_country_data_temperatures_locator "cfg/country_temps.csv" =
        "GlobalLandTemperaturesByCountry.csv" ∧
    read_country_data_temperatures_locator "cfg/country_temps.csv" ≠
        "cfg/country_temps.csv" ∧
    read_demographics_data_locator "cfg/demographics.csv" =
        "us-cities-demographics.csv" ∧
    read_demographics_data_locator "cfg/demographics.csv" ≠
        "cfg/demographics.csv" ∧
    read_city_temperatures_locator "cfg/city_temps.csv" =
        "../../data2/GlobalLandTemperaturesByCity.csv" ∧
    read_city_temperatures_locator "cfg/city_temps.csv" ≠
        "cfg/city_temps.csv" ∧
    (∀ p : String, read_country_data_countries_locator p = p) ∧
    (∀ p : String, read_port_data_locator p = p) ∧
    (∀ p : String, read_airport_data_locator p = p) ∧
    (∀ p : String, read_immigration_data_locator p = p) :=
  ⟨rfl, by decide, rfl, by decide, rfl, by decide,
   fun _ => rfl, fun _ => rfl, fun _ => rfl, fun _ => rfl⟩

/-! ## C4 — convert_datetime -/

/-- Counterexample to C4 as stated: at the day-offset 2936550 — one day
past Python `datetime.max`'s date 9999-12-31, which sits at day-count
2936549 — the program's bare `except` catches the `OverflowError` and
returns null, not the epoch plus 2936550 days. -/
theorem convert_datetime_overflow_at_year_9999 :
    convert_datetime (PyVal.int 2936550) ≠
        some (datePlusDays date_1960_01_01 2936550) ∧
    convert_datetime (PyVal.int 2936550) = Option.none ∧
    civilFromDays pydatetime_max_days = ⟨9999, 12, 31⟩ ∧
    pydatetime_max_days = 2936549 := by decide

/-- C4 (amended): for every integer day-offset `d` with
`0 ≤ d ≤ 2936549` — that is, while 1960-01-01 plus `d` days is at most
9999-12-31, Python `datetime`'s maximum — `convert_datetime` returns the
date 1960-01-01 plus `d` days (the epoch really is 1960-01-01 and the
bound really is 9999-12-31: see the `civilFromDays` conjuncts); for every
larger `d` the overflow is caught and null is returned; null input and
any non-numeric string input also yield null instead of an error. -/
theorem convert_datetime_epoch_offset_bounded :
    (∀ d : Int, 0 ≤ d → d ≤ pydatetime_max_days →
        convert_datetime (PyVal.int d) =
          some (datePlusDays date_1960_01_01 d)) ∧
    (∀ d : Int, pydatetime_max_days < d →
        convert_datetime (PyVal.int d) = Option.none) ∧
    civilFromDays date_1960_01_01 = ⟨1960, 1, 1⟩ ∧
    civilFromDays pydatetime_max_days = ⟨9999, 12, 31⟩ ∧
    convert_datetime PyVal.none = Option.none ∧
    (∀ s : String, pyStrToInt s = Option.none →
        convert_datetime (PyVal.str s) = Option.none) := by
  refine ⟨fun d h0 hmax => ?_, fun d hgt => ?_, by decide, by decide, rfl,
    fun s hs => ?_⟩
  · have h1 : pydatetime_min_days ≤ date_1960_01_01 + d := by
      have hmin : pydatetime_min_days ≤ 0 := by decide
      unfold date_1960_01_01
      omega
    have h2 : date_1960_01_01 + d ≤ pydatetime_max_days := by
      unfold date_1960_01_01
      unfold date_1960_01_01 at hmax
      omega
    show (if pydatetime_min_days ≤ date_1960_01_01 + d ∧
        date_1960_01_01 + d ≤ pydatetime_max_days then
      some (datePlusDays date_1960_01_01 d) else none) =
        some (datePlusDays date_1960_01_01 d)
    rw [if_pos ⟨h1, h2⟩]
  · have hcond : ¬(pydatetime_min_days ≤ date_1960_01_01 + d ∧
        date_1960_01_01 + d ≤ pydatetime_max_days) := by
      rintro ⟨_, h2⟩
      unfold date_1960_01_01 at h2
      omega
    show (if pydatetime_min_days ≤ date_1960_01_01 + d ∧
        date_1960_01_01 + d ≤ pydatetime_max_days then
      some (datePlusDays date_1960_01_01 d) else none) = Option.none
    rw [if_neg hcond]
  · simp [convert_datetime, pyInt, hs]

/-- Witness for the amended C4 at the in-range day-offset 3, the
overflowing day-offset 2936550 and the non-numeric string "abc". -/
theorem convert_datetime_epoch_offset_bounded_witness :
    convert_datetime (PyVal.int 3) = some (datePlusDays date_1960_01_01 3) ∧
    convert_datetime (PyVal.int 2936550) = Option.none ∧
    convert_datetime (PyVal.str "abc") = Option.none :=
  ⟨convert_datetime_epoch_offset_bounded.1 3 (by decide) (by decide),
   convert_datetime_epoch_offset_bounded.2.1 2936550 (by decide),
   convert_datetime_epoch_offset_bounded.2.2.2.2.2 "abc" (by decide)⟩

/-! ## C5 — travel-mode and visa-type decoders are total -/

/-- C5: `convert_i94mode` and `convert_visatype` are total Lean functions
(so they never fail), with the decoded mappings 1/2/3 ↦
Air/Sea/Land, null and every other integer ↦ Unknown, and null ↦
Not Reported, 1/2/3 ↦ Business/Pleasure/Student, every other integer ↦
Unknown. -/
theorem decode_travel_mode_visa_type_total :
    (∀ n : Int, n ≠ 1 → n ≠ 2 → n ≠ 3 →
        convert_i94mode (PyVal.int n) = "Unknown") ∧
    (∀ n : Int, n ≠ 1 → n ≠ 2 → n ≠ 3 →
        convert_visatype (PyVal.int n) = "Unknown") ∧
    convert_i94mode (PyVal.int 1) = "Air" ∧
    convert_i94mode (PyVal.int 2) = "Sea" ∧
    convert_i94mode (PyVal.int 3) = "Land" ∧
    convert_i94mode PyVal.none = "Unknown" ∧
    convert_visatype PyVal.none = "Not Reported" ∧
    convert_visatype (PyVal.int 1) = "Business" ∧
    convert_visatype (PyVal.int 2) = "Pleasure" ∧
    convert_visatype (PyVal.int 3) = "Student" := by
  refine ⟨fun n h1 h2 h3 => ?_, fun n h1 h2 h3 => ?_, by decide, by decide,
    by decide, by decide, by decide, by decide, by decide, by decide⟩
  · simp [convert_i94mode, pyEqInt, h1, h2, h3]
  · simp [convert_visatype, pyEqInt, h1, h2, h3]

/-- Witness for C5 at the out-of-range code 9. -/
theorem decode_travel_mode_visa_type_total_witness :
    convert_i94mode (PyVal.int 9) = "Unknown" ∧
    convert_visatype (PyVal.int 9) = "Unknown" :=
  ⟨decode_travel_mode_visa_type_total.1 9 (by decide) (by decide) (by decide),
   decode_travel_mode_visa_type_total.2.1 9 (by decide) (by decide)
      (by decide)⟩

/-! ## C2 — latest-measurement reducers -/

/-- A row gets dense rank 1 exactly when no row of its partition has a
strictly later date. -/
theorem denseRankDtDesc_eq_one {α : Type} (key : α → Option String)
    (dt : α → Int) (l : List α) (r : α) :
    denseRankDtDesc key dt l r = 1 ↔
      ∀ x ∈ l, key x = key r → dt x ≤ dt r := by
  unfold denseRankDtDesc
  constructor
  · intro h x hx hk
    by_contra hlt
    push_neg at hlt
    have hmem : dt x ∈ (((l.filter (fun y => decide (key y = key r))).map
        dt).dedup).filter (fun d => decide (dt r < d)) := by
      rw [List.mem_filter]
      refine ⟨List.mem_dedup.mpr ?_, by simpa using hlt⟩
      exact List.mem_map.mpr ⟨x, List.mem_filter.mpr ⟨hx, by simpa using hk⟩,
        rfl⟩
    have hpos : 0 < ((((l.filter (fun y => decide (key y = key r))).map
        dt).dedup).filter (fun d => decide (dt r < d))).length :=
      List.length_pos.mpr (List.ne_nil_of_mem hmem)
    omega
  · intro h
    have hnil : (((l.filter (fun y => decide (key y = key r))).map
        dt).dedup).filter (fun d => decide (dt r < d)) = [] := by
      rw [List.filter_eq_nil_iff]
      intro d hd
      rw [List.mem_dedup, List.mem_map] at hd
      obtain ⟨x, hxf, rfl⟩ := hd
      rw [List.mem_filter] at hxf
      simpa using not_lt.mpr (h x hxf.1 (by simpa using hxf.2))
    rw [hnil]
    rfl

/-- Membership characterisation of the country-temperature reduction: a
row survives exactly when it passes the date threshold, has a non-null
temperature, and no other surviving-eligible row of its country has a
strictly later date. -/
theorem mem_reduceCountryTemps (l : List CountryTempRow)
    (r : CountryTempRow) :
    r ∈ reduceCountryTemps l ↔
      r ∈ l ∧ threshold_1999_12_31 < r.dt ∧
        r.AverageTemperature.isSome = true ∧
        ∀ x ∈ l, threshold_1999_12_31 < x.dt →
          x.AverageTemperature.isSome = true → x.Country = r.Country →
            x.dt ≤ r.dt := by
  unfold reduceCountryTemps
  rw [List.mem_filter]
  have hchar := denseRankDtDesc_eq_one CountryTempRow.Country
    CountryTempRow.dt (countryTempsFiltered l) r
  constructor
  · rintro ⟨hr1, hrank⟩
    rw [decide_eq_true_eq, hchar] at hrank
    unfold countryTempsFiltered at hr1
    rw [List.mem_filter, List.mem_filter] at hr1
    refine ⟨hr1.1.1, by simpa using hr1.1.2, hr1.2, ?_⟩
    intro x hx hxd hxt hxc
    exact hrank x (by
      unfold countryTempsFiltered
      rw [List.mem_filter, List.mem_filter]
      exact ⟨⟨hx, by simpa using hxd⟩, hxt⟩) hxc
  · rintro ⟨hr, hrd, hrt, hmax⟩
    have hr1 : r ∈ countryTempsFiltered l := by
      unfold countryTempsFiltered
      rw [List.mem_filter, List.mem_filter]
      exact ⟨⟨hr, by simpa using hrd⟩, hrt⟩
    refine ⟨hr1, ?_⟩
    rw [decide_eq_true_eq, hchar]
    intro x hx hxc
    unfold countryTempsFiltered at hx
    rw [List.mem_filter, List.mem_filter] at hx
    exact hmax x hx.1.1 (by simpa using hx.1.2) hx.2 hxc

/-- Membership characterisation of the city-temperature reduction: a row
survives exactly when it passes the date threshold, belongs to the United
States, and no other surviving-eligible row of its city has a strictly
later date.  There is no non-null condition on the temperature. -/
theorem mem_reduceCityTemps (l : List CityTempRow) (r : CityTempRow) :
    r ∈ reduceCityTemps l ↔
      r ∈ l ∧ threshold_1999_12_31 < r.dt ∧
        r.Country = some "United States" ∧
        ∀ x ∈ l, threshold_1999_12_31 < x.dt →
          x.Country = some "United States" → x.City = r.City →
            x.dt ≤ r.dt := by
  unfold reduceCityTemps
  rw [List.mem_filter]
  have hchar := denseRankDtDesc_eq_one CityTempRow.City CityTempRow.dt
    (cityTempsFiltered l) r
  constructor
  · rintro ⟨hr1, hrank⟩
    rw [decide_eq_true_eq, hchar] at hrank
    unfold cityTempsFiltered at hr1
    rw [List.mem_filter, List.mem_filter] at hr1
    refine ⟨hr1.1.1, by simpa using hr1.1.2, by simpa using hr1.2, ?_⟩
    intro x hx hxd hxc hcity
    exact hrank x (by
      unfold cityTempsFiltered
      rw [List.mem_filter, List.mem_filter]
      exact ⟨⟨hx, by simpa using hxd⟩, by simpa using hxc⟩) hcity
  · rintro ⟨hr, hrd, hrc, hmax⟩
    have hr1 : r ∈ cityTempsFiltered l := by
      unfold cityTempsFiltered
      rw [List.mem_filter, List.mem_filter]
      exact ⟨⟨hr, by simpa using hrd⟩, by simpa using hrc⟩
    refine ⟨hr1, ?_⟩
    rw [decide_eq_true_eq, hchar]
    intro x hx hcity
    unfold cityTempsFiltered at hx
    rw [List.mem_filter, List.mem_filter] at hx
    exact hmax x hx.1.1 (by simpa using hx.1.2) (by simpa using hx.2) hcity

/-- A city row at the maximum date with a NULL temperature (the city
pipeline never filters these out). -/
def cityRowNullTemp : CityTempRow :=
  { dt := 20240, AverageTemperature := Option.none,
    AverageTemperatureUncertainty := Option.none, City := some "Chicago",
    Country := some "United States" }

/-- A second city row tying on the same maximum date. -/
def cityRowTied : CityTempRow :=
  { dt := 20240, AverageTemperature := some 20,
    AverageTemperatureUncertainty := some 1, City := some "Chicago",
    Country := some "United States" }

/-- An older city row with a non-null temperature. -/
def cityRowOlder : CityTempRow :=
  { dt := 20209, AverageTemperature := some 15,
    AverageTemperatureUncertainty := some 1, City := some "Chicago",
    Country := some "United States" }

/-- Counterexample to C2 as stated: on this three-row United-States
series for the single city "Chicago" the reduced city table keeps TWO
rows (dense rank keeps every row tying on the maximum date), and one of
the kept rows has a NULL temperature, so the kept rows are not "the most
recent date at which the temperature value is non-null" (that would be
the older row). -/
theorem city_reducer_not_one_row_per_group :
    reduceCityTemps [cityRowNullTemp, cityRowTied, cityRowOlder] =
        [cityRowNullTemp, cityRowTied] ∧
    ((reduceCityTemps [cityRowNullTemp, cityRowTied, cityRowOlder]).filter
        (fun r => decide (r.City = some "Chicago"))).length = 2 ∧
    cityRowNullTemp ∈
        reduceCityTemps [cityRowNullTemp, cityRowTied, cityRowOlder] ∧
    cityRowNullTemp.AverageTemperature = Option.none := by
  refine ⟨by decide, by decide, by decide, rfl⟩

/-- C2 (amended): each reduced temperature table keeps, per group key,
exactly the qualifying rows that carry the group's maximum qualifying
date — several rows when they tie on that maximum.  Qualifying means
`dt > 1999-12-31` and, for the country table only, a non-null
temperature; the city table (restricted to Country = "United States")
applies no null-temperature filter, so its kept rows may carry null
temperatures. -/
theorem reduced_tables_keep_max_date_rows :
    (∀ (l : List CountryTempRow) (r : CountryTempRow),
      r ∈ reduceCountryTemps l ↔
        r ∈ l ∧ threshold_1999_12_31 < r.dt ∧
          r.AverageTemperature.isSome = true ∧
          ∀ x ∈ l, threshold_1999_12_31 < x.dt →
            x.AverageTemperature.isSome = true → x.Country = r.Country →
              x.dt ≤ r.dt) ∧
    (∀ (l : List CityTempRow) (r : CityTempRow),
      r ∈ reduceCityTemps l ↔
        r ∈ l ∧ threshold_1999_12_31 < r.dt ∧
          r.Country = some "United States" ∧
          ∀ x ∈ l, threshold_1999_12_31 < x.dt →
            x.Country = some "United States" → x.City = r.City →
              x.dt ≤ r.dt) :=
  ⟨mem_reduceCountryTemps, mem_reduceCityTemps⟩

/-- Witness for the amended C2: the tied maximum-date row is kept on the
concrete three-row input. -/
theorem reduced_tables_keep_max_date_rows_witness :
    cityRowTied ∈ reduceCityTemps [cityRowNullTemp, cityRowTied,
      cityRowOlder] :=
  (reduced_tables_keep_max_date_rows.2
    [cityRowNullTemp, cityRowTied, cityRowOlder] cityRowTied).mpr (by decide)

/-! ## C7 — demographics inner join -/

/-- Membership characterisation of the demographics join. -/
theorem mem_demographicsTable (ports : List PortRow) (demos : List DemoRow)
    (row : DemoOut) :
    row ∈ demographicsTable ports demos ↔
      ∃ p ∈ ports, ∃ d ∈ demos, demoMatch p d = true ∧
        row = mkDemoOut p d := by
  unfold demographicsTable
  rw [List.mem_map]
  constructor
  · rintro ⟨pd, hpd, rfl⟩
    rw [List.mem_dedup, List.mem_flatMap] at hpd
    obtain ⟨p, hp, hpd⟩ := hpd
    rw [List.mem_map] at hpd
    obtain ⟨d, hd, rfl⟩ := hpd
    rw [List.mem_filter] at hd
    exact ⟨p, hp, d, hd.1, hd.2, rfl⟩
  · rintro ⟨p, hp, d, hd, hm, rfl⟩
    refine ⟨(p, d), ?_, rfl⟩
    rw [List.mem_dedup, List.mem_flatMap]
    exact ⟨p, hp, List.mem_map.mpr ⟨d, List.mem_filter.mpr ⟨hd, hm⟩, rfl⟩⟩

/-- Two nullable strings that upper-compare equal to a common value
upper-compare equal to each other. -/
theorem sqlUpperEq_of_common (a b c : Option String)
    (h1 : sqlUpperEq a c = true) (h2 : sqlUpperEq b c = true) :
    sqlUpperEq a b = true := by
  cases a <;> cases b <;> cases c <;> simp [sqlUpperEq] at h1 h2 ⊢
  exact h1.trans h2.symm

/-- C7: the demographics output is the INNER join of PortRef and
Demographics on upper-cased city and state code — every output row comes
from a matching port/demographics pair (so a port with no match is
absent) — and a port row spelled ("ATL", "Atlanta", "GA") in any letter
case joined with a demographics row for ("GA", "Atlanta") in any letter
case yields a row with Port_Code = "ATL" carrying the demographic
fields. -/
theorem demographics_join_inner_case_insensitive (ports : List PortRow)
    (demos : List DemoRow) :
    (∀ row ∈ demographicsTable ports demos,
        ∃ p ∈ ports, ∃ d ∈ demos, demoMatch p d = true ∧
          row = mkDemoOut p d) ∧
    (∀ p ∈ ports, ∀ d ∈ demos,
        p.Port_Code = some "ATL" →
        sqlUpperEq p.Port_City (some "Atlanta") = true →
        sqlUpperEq p.State_Code (some "GA") = true →
        sqlUpperEq d.City (some "Atlanta") = true →
        sqlUpperEq d.State_Code (some "GA") = true →
        ∃ row ∈ demographicsTable ports demos,
          row.Port_Code = some "ATL" ∧ row.State = d.State ∧
          row.Median_Age = d.Median_Age ∧
          row.Total_Population = d.Total_Population ∧
          row.race = d.race ∧ row.Count = d.Count) := by
  constructor
  · intro row hrow
    exact (mem_demographicsTable ports demos row).mp hrow
  · intro p hp d hd hcode hc1 hs1 hc2 hs2
    have hm : demoMatch p d = true := by
      unfold demoMatch
      rw [Bool.and_eq_true]
      exact ⟨sqlUpperEq_of_common _ _ _ hc1 hc2,
        sqlUpperEq_of_common _ _ _ hs1 hs2⟩
    refine ⟨mkDemoOut p d,
      (mem_demographicsTable ports demos _).mpr ⟨p, hp, d, hd, hm, rfl⟩, ?_⟩
    simp [mkDemoOut, hcode]

/-- The mixed-case "ATL" port row. -/
def portATL : PortRow :=
  { Port_Code := some "ATL", Port_City := some "aTLanta",
    State_Code := some "ga" }

/-- The mixed-case Atlanta demographics row. -/
def demoATL : DemoRow :=
  { City := some "ATLANTA", State := some "Georgia",
    Median_Age := some 35, Male_Population := some 200000,
    Female_Population := some 210000, Total_Population := some 410000,
    Number_of_Veterans := some 20000, Foreign_born := some 50000,
    Avg_Household_Size := some 2.5, State_Code := some "GA",
    race := some "White", Count := some 300000 }

/-- Witness for C7: the concrete mixed-case pair joins and the
demographic fields come through. -/
theorem demographics_join_inner_case_insensitive_witness :
    ∃ row ∈ demographicsTable [portATL] [demoATL],
      row.Port_Code = some "ATL" ∧ row.State = demoATL.State ∧
      row.Median_Age = demoATL.Median_Age ∧
      row.Total_Population = demoATL.Total_Population ∧
      row.race = demoATL.race ∧ row.Count = demoATL.Count :=
  (demographics_join_inner_case_insensitive [portATL] [demoATL]).2
    portATL (List.mem_singleton.mpr rfl) demoATL (List.mem_singleton.mpr rfl)
    (by decide) (by decide) (by decide) (by decide) (by decide)

/-! ## C8 — country left outer join -/

/-- C8: every CountryRef row appears in the country output with its code
and name, and a country with no match in the reduced temperature table
appears with NULL in the three temperature-side fields instead of being
dropped. -/
theorem country_table_left_outer (countries : List CountryRow)
    (temps : List CountryTempRow) :
    (∀ c ∈ countries, ∃ row ∈ countryTable countries temps,
        row.Country_code = c.Country_Code ∧ row.Country = c.Country) ∧
    (∀ c ∈ countries,
        (∀ t ∈ reduceCountryTemps temps,
          sqlUpperEq c.Country t.Country = false) →
        mkCountryOutNull c ∈ countryTable countries temps) := by
  have hbranch : ∀ c ∈ countries, ∀ out : CountryOut,
      out ∈ (if ((reduceCountryTemps temps).filter
              (fun t => sqlUpperEq c.Country t.Country)).isEmpty
             then [mkCountryOutNull c]
             else ((reduceCountryTemps temps).filter
              (fun t => sqlUpperEq c.Country t.Country)).map
                (mkCountryOut c)) →
      out ∈ countryTable countries temps := by
    intro c hc out hout
    unfold countryTable
    rw [List.mem_dedup, List.mem_flatMap]
    exact ⟨c, hc, hout⟩
  constructor
  · intro c hc
    by_cases hemp : ((reduceCountryTemps temps).filter
        (fun t => sqlUpperEq c.Country t.Country)).isEmpty = true
    · refine ⟨mkCountryOutNull c, hbranch c hc _ ?_, rfl, rfl⟩
      rw [if_pos hemp]
      exact List.mem_singleton.mpr rfl
    · have hne : (reduceCountryTemps temps).filter
          (fun t => sqlUpperEq c.Country t.Country) ≠ [] := by
        intro h
        rw [h] at hemp
        exact hemp rfl
      obtain ⟨t, ht⟩ := List.exists_mem_of_ne_nil _ hne
      refine ⟨mkCountryOut c t, hbranch c hc _ ?_, rfl, rfl⟩
      rw [if_neg hemp]
      exact List.mem_map.mpr ⟨t, ht, rfl⟩
  · intro c hc hnone
    have hemp : ((reduceCountryTemps temps).filter
        (fun t => sqlUpperEq c.Country t.Country)).isEmpty = true := by
      rw [List.isEmpty_iff, List.filter_eq_nil_iff]
      intro t ht
      simp [hnone t ht]
    refine hbranch c hc _ ?_
    rw [if_pos hemp]
    exact List.mem_singleton.mpr rfl

/-- A country with no temperature match. -/
def countryNoTemp : CountryRow :=
  { Country_Code := some 236, Country := some "Afghanistan" }

/-- Witness for C8: with an empty temperature table the country is still
emitted, with NULL temperature fields. -/
theorem country_table_left_outer_witness :
    mkCountryOutNull countryNoTemp ∈ countryTable [countryNoTemp] [] :=
  (country_table_left_outer [countryNoTemp] []).2 countryNoTemp (by decide)
    (by decide)

/-! ## C6 — airport elevation conversion -/

/-- C6: every joined airport row has `elevation_metres` equal to the
exact ceiling of `elevation_feet * 0.3048`, `elevation_feet` is the
source elevation with NULL defaulted to 0 before the conversion, and
`elevation_feet = 0` gives `elevation_metres = 0`. -/
theorem airport_elevation_metres (ports : List PortRow)
    (airports : List AirportRow) :
    ∀ row ∈ airportsTable ports airports,
      row.elevation_metres = ⌈row.elevation_feet * (0.3048 : Rat)⌉ ∧
      (∃ a ∈ airports, row.elevation_feet = ifnull0 a.elevation_ft) ∧
      (row.elevation_feet = 0 → row.elevation_metres = 0) := by
  intro row hrow
  unfold airportsTable at hrow
  rw [List.mem_flatMap] at hrow
  obtain ⟨p, _, hrow⟩ := hrow
  rw [List.mem_map] at hrow
  obtain ⟨a, ha, rfl⟩ := hrow
  rw [List.mem_filter] at ha
  refine ⟨?_, ⟨a, ha.1, rfl⟩, ?_⟩
  · show ratCeil (ifnull0 a.elevation_ft * (0.3048 : Rat)) =
      ⌈ifnull0 a.elevation_ft * (0.3048 : Rat)⌉
    exact ratCeil_eq_ceil _
  · intro h0
    show ratCeil (ifnull0 a.elevation_ft * (0.3048 : Rat)) = 0
    have h0' : ifnull0 a.elevation_ft = 0 := h0
    rw [ratCeil_eq_ceil, h0', zero_mul]
    exact Int.ceil_zero

/-- The Atlanta port row used in the airport witness. -/
def portAirportW : PortRow :=
  { Port_Code := some "ATL", Port_City := some "Atlanta",
    State_Code := some "GA" }

/-- An open US airport row matching that port. -/
def airportW : AirportRow :=
  { ident := some "KATL", type := some "large_airport",
    name := some "Hartsfield Jackson", elevation_ft := some 1026,
    continent := Option.none, iso_country := some "US",
    iso_region := some "US-GA", municipality := some "Atlanta",
    gps_code := some "KATL", iata_code := some "ATL",
    local_code := some "ATL", coordinates := Option.none }

/-- Witness for C6 at the joined Atlanta row. -/
theorem airport_elevation_metres_witness :
    (mkAirportOut portAirportW airportW).elevation_metres =
        ⌈(mkAirportOut portAirportW airportW).elevation_feet *
          (0.3048 : Rat)⌉ ∧
    (∃ a ∈ [airportW], (mkAirportOut portAirportW airportW).elevation_feet =
        ifnull0 a.elevation_ft) ∧
    ((mkAirportOut portAirportW airportW).elevation_feet = 0 →
        (mkAirportOut portAirportW airportW).elevation_metres = 0) :=
  airport_elevation_metres [portAirportW] [airportW]
    (mkAirportOut portAirportW airportW) (by
      have h : airportsTable [portAirportW] [airportW] =
          [mkAirportOut portAirportW airportW] := rfl
      rw [h]
      exact List.mem_singleton.mpr rfl)

/-! ## C9 / C10 — the time dimension -/

/-- Membership characterisation of the time table: its rows are exactly
the projected rows derived from an arrival date or a departure date of
some raw record whose corresponding raw date is not null. -/
theorem mem_timeTable (l : List ImmigrationRecord) (t : TimeOut) :
    t ∈ timeTable l ↔
      ∃ r ∈ l,
        (r.arrdate ≠ PyVal.none ∧ t = dropDay (mkTimeRow r.arrdate)) ∨
        (r.depdate ≠ PyVal.none ∧ t = dropDay (mkTimeRow r.depdate)) := by
  unfold timeTable timeTableRaw
  rw [List.mem_map]
  constructor
  · rintro ⟨tr, htr, rfl⟩
    rw [List.mem_dedup, List.mem_append] at htr
    rcases htr with h | h
    · rw [List.mem_dedup, List.mem_map] at h
      obtain ⟨r, hr, rfl⟩ := h
      rw [List.mem_filter] at hr
      exact ⟨r, hr.1, Or.inl ⟨by simpa using hr.2, rfl⟩⟩
    · rw [List.mem_dedup, List.mem_map] at h
      obtain ⟨r, hr, rfl⟩ := h
      rw [List.mem_filter] at hr
      exact ⟨r, hr.1, Or.inr ⟨by simpa using hr.2, rfl⟩⟩
  · rintro ⟨r, hr, h | h⟩
    · obtain ⟨hnn, rfl⟩ := h
      refine ⟨mkTimeRow r.arrdate, ?_, rfl⟩
      rw [List.mem_dedup, List.mem_append]
      left
      rw [List.mem_dedup, List.mem_map]
      exact ⟨r, List.mem_filter.mpr ⟨hr, by simpa using hnn⟩, rfl⟩
    · obtain ⟨hnn, rfl⟩ := h
      refine ⟨mkTimeRow r.depdate, ?_, rfl⟩
      rw [List.mem_dedup, List.mem_append]
      right
      rw [List.mem_dedup, List.mem_map]
      exact ⟨r, List.mem_filter.mpr ⟨hr, by simpa using hnn⟩, rfl⟩

/-- C9: the time table is the deduplicated union of the rows derived
from arrival dates and from departure dates (null raw dates skipped);
the pre-projection rows are duplicate-free; and the final projection
keeps exactly the columns other than `day` — two seven-column rows are
identified by the projection exactly when they agree on date, year,
month, week-of-year, quarter and day-of-week. -/
theorem time_table_union_dedup_projection (l : List ImmigrationRecord) :
    (∀ t : TimeOut, t ∈ timeTable l ↔
        ∃ r ∈ l,
          (r.arrdate ≠ PyVal.none ∧ t = dropDay (mkTimeRow r.arrdate)) ∨
          (r.depdate ≠ PyVal.none ∧ t = dropDay (mkTimeRow r.depdate))) ∧
    (timeTableRaw l).Nodup ∧
    (∀ t1 t2 : TimeRow, dropDay t1 = dropDay t2 ↔
        (t1.sas_date = t2.sas_date ∧ t1.year = t2.year ∧
         t1.month = t2.month ∧ t1.weekofyear = t2.weekofyear ∧
         t1.quarter = t2.quarter ∧ t1.dayofweek = t2.dayofweek)) := by
  refine ⟨mem_timeTable l, List.nodup_dedup _, ?_⟩
  intro t1 t2
  constructor
  · intro h
    simpa only [dropDay, TimeOut.mk.injEq] using h
  · intro h
    simp only [dropDay, TimeOut.mk.injEq]
    exact h

/-- A raw record whose identifier is not the hardcoded one. -/
def timeRecW : ImmigrationRecord :=
  { cicid := PyVal.float 42, i94yr := PyVal.float 2016,
    i94mon := PyVal.float 4, i94cit := PyVal.float 582,
    i94port := PyVal.str "CHI", biryear := PyVal.float 1990,
    airline := PyVal.str "UA", fltno := PyVal.str "330",
    i94visa := PyVal.float 3, i94mode := PyVal.float 1,
    arrdate := PyVal.float 20545, depdate := PyVal.none }

/-- Witness for C9: the arrival-derived row of the concrete record is in
the time table. -/
theorem time_table_union_dedup_projection_witness :
    dropDay (mkTimeRow timeRecW.arrdate) ∈ timeTable [timeRecW] :=
  ((time_table_union_dedup_projection [timeRecW]).1 _).mpr
    ⟨timeRecW, List.mem_singleton.mpr rfl, Or.inl ⟨by decide, rfl⟩⟩

/-- C10: the time dimension is built from the raw immigrations view, not
from the filtered projection — a record whose identifier differs from
5748881 still contributes its arrival-derived row to the time table,
while no row of the immigration output carries that record's
identifier. -/
theorem time_dimension_from_unfiltered_view (l : List ImmigrationRecord)
    (r : ImmigrationRecord) (hr : r ∈ l)
    (hid : sparkIntCast r.cicid ≠ some 5748881) :
    (r.arrdate ≠ PyVal.none →
      dropDay (mkTimeRow r.arrdate) ∈ timeTable l) ∧
    (r.depdate ≠ PyVal.none →
      dropDay (mkTimeRow r.depdate) ∈ timeTable l) ∧
    ∀ row ∈ immigrationsTable l,
      row.immigration_id ≠ sparkIntCast r.cicid := by
  refine ⟨fun ha => (mem_timeTable l _).mpr ⟨r, hr, Or.inl ⟨ha, rfl⟩⟩,
    fun hd => (mem_timeTable l _).mpr ⟨r, hr, Or.inr ⟨hd, rfl⟩⟩, ?_⟩
  intro row hrow
  obtain ⟨x, _, hc, rfl⟩ := (mem_immigrationsTable l row).mp hrow
  show sparkIntCast x.cicid ≠ sparkIntCast r.cicid
  rw [hc]
  exact fun h => hid h.symm

/-- Witness for C10 on the concrete non-matching record: its date row is
in the time table even though the immigration output (here empty) never
carries its identifier. -/
theorem time_dimension_from_unfiltered_view_witness :
    (timeRecW.arrdate ≠ PyVal.none →
      dropDay (mkTimeRow timeRecW.arrdate) ∈ timeTable [timeRecW]) ∧
    (timeRecW.depdate ≠ PyVal.none →
      dropDay (mkTimeRow timeRecW.depdate) ∈ timeTable [timeRecW]) ∧
    ∀ row ∈ immigrationsTable [timeRecW],
      row.immigration_id ≠ sparkIntCast timeRecW.cicid :=
  time_dimension_from_unfiltered_view [timeRecW] timeRecW
    (List.mem_singleton.mpr rfl) (by decide)

end ETL
